import Mathlib

/-!
Shallow embedding of the selection-expression evaluator of `wgpu-3dgs-editor`
(`src/selection.rs`, `src/buffer/selection.rs`, `src/error.rs`).

GPU objects are abstracted to the data the host-side code computes about them:
a `wgpu::Buffer` becomes its byte size (for `MaskBuffer`) or a numeric buffer
identifier (for the evaluator's selection buffers), a recorded compute dispatch
becomes a record of the buffers bound to its six fixed slots, and the
asynchronous download path becomes a function of the outcomes of its two
suspension points (device poll, map notification).
-/

namespace WgpuEditor

/-- Rust `SelectionOp` from `src/buffer/selection.rs`: the operation tag carried by
the uniform op buffer of each dispatch. -/
inductive SelectionOp where
  | Union
  | Intersection
  | SymmetricDifference
  | Difference
  | Complement
  | Custom (op : Nat)
deriving DecidableEq, Repr

/-- Rust `SelectionOp::as_u32` from `src/buffer/selection.rs`, clause for clause in
the source's order. -/
def SelectionOp.as_u32 : SelectionOp → Nat
  | SelectionOp.Union => 0
  | SelectionOp.Intersection => 1
  | SelectionOp.SymmetricDifference => 2
  | SelectionOp.Difference => 3
  | SelectionOp.Complement => 4
  | SelectionOp.Custom op => op

/-- Rust `SelectionOpExpr` from `src/selection.rs`: the selection operation
expression tree. Every constructor of the source enum boxes at least one
subexpression; the type has no leaf variant. -/
inductive SelectionOpExpr where
  | Union : SelectionOpExpr → SelectionOpExpr → SelectionOpExpr
  | Intersection : SelectionOpExpr → SelectionOpExpr → SelectionOpExpr
  | Difference : SelectionOpExpr → SelectionOpExpr → SelectionOpExpr
  | SymmetricDifference : SelectionOpExpr → SelectionOpExpr → SelectionOpExpr
  | Complement : SelectionOpExpr → SelectionOpExpr
  | Unary : Nat → SelectionOpExpr → SelectionOpExpr
  | Binary : SelectionOpExpr → Nat → SelectionOpExpr → SelectionOpExpr

/-- Rust `SelectionOpExpr::selection_op` from `src/selection.rs`. -/
def SelectionOpExpr.selection_op : SelectionOpExpr → SelectionOp
  | SelectionOpExpr.Union _ _ => SelectionOp.Union
  | SelectionOpExpr.Intersection _ _ => SelectionOp.Intersection
  | SelectionOpExpr.Difference _ _ => SelectionOp.Difference
  | SelectionOpExpr.SymmetricDifference _ _ => SelectionOp.SymmetricDifference
  | SelectionOpExpr.Complement _ => SelectionOp.Complement
  | SelectionOpExpr.Unary op _ => SelectionOp.Custom op
  | SelectionOpExpr.Binary _ op _ => SelectionOp.Custom op

/-- Number of boxed subexpressions of the head constructor of a
`SelectionOpExpr`. -/
def SelectionOpExpr.childCount : SelectionOpExpr → Nat
  | SelectionOpExpr.Union _ _ => 2
  | SelectionOpExpr.Intersection _ _ => 2
  | SelectionOpExpr.Difference _ _ => 2
  | SelectionOpExpr.SymmetricDifference _ _ => 2
  | SelectionOpExpr.Complement _ => 1
  | SelectionOpExpr.Unary _ _ => 1
  | SelectionOpExpr.Binary _ _ _ => 2

/-- The name-to-code association built inside `SelectionBundleBuilder::build`
and `build_without_bind_groups` (`src/selection.rs`): the list that is
collected into the `custom_ops` hash map,
`self.custom_ops.into_iter().enumerate().map(|(i, op)| (op, i as u32 + 4))`. -/
def buildCustomOpsList (ops : List String) : List (String × Nat) :=
  ops.enum.map (fun p => (p.2, p.1 + 4))

/-- The per-snippet branch lines generated by
`SelectionBundleBuilder::build_dyn_resolver` (`src/selection.rs`):
`format!("else if op == {op_index} {{ {op}; }}")` with `op_index = i + 4`. -/
def customOpsLines (ops : List String) : List String :=
  ops.enum.map (fun p =>
    "else if op == " ++ toString (p.1 + 4) ++ " \x7b " ++ p.2 ++ "; \x7d")

/-- The spliced custom-ops shader text of `build_dyn_resolver`: the branch
lines joined by newlines. -/
def customOpsShader (ops : List String) : String :=
  String.intercalate "\n" (customOpsLines ops)

/-- The dispatcher shader registered by `build_dyn_resolver`: the template
with the placeholder replaced by the generated branch chain, built once when
the bundle is built. -/
def dynResolverShader (template : String) (ops : List String) : String :=
  template.replace "\x7b\x7bcustom_ops\x7d\x7d" (customOpsShader ops)

/-- One recorded compute dispatch of
`SelectionBundle::evaluate_with_buffers` (`src/selection.rs`): the operation
value written to the uniform op buffer and the buffers bound to the six slots
of the Gaussians bind group (`[op, source, dest, model_transform,
gaussian_transform, gaussians]`), together with the dispatch grid size
`gaussians.len()`. Buffers are identified by numeric ids. -/
structure DispatchRec where
  op : SelectionOp
  source : Nat
  dest : Nat
  model_transform : Nat
  gaussian_transform : Nat
  gaussians : Nat
  size : Nat
deriving DecidableEq, Repr

/-- Host-side state threaded through the lowering recursion: the id the next
`SelectionBuffer::new` allocation receives, the log of selection-buffer
allocations `(id, capacity)` in allocation order, and the dispatches recorded
into the command encoder in program order. -/
structure EvalState where
  nextId : Nat
  allocs : List (Nat × Nat)
  cmds : List DispatchRec
deriving DecidableEq, Repr

/-- The binary-node lowering step of `evaluate_with_buffers`: allocate the
temporary `source` buffer with capacity `n = gaussians.len()`, evaluate the
left subtree into it, evaluate the right subtree into the destination `d`,
then record the dispatch binding `source` and `d`. `left` and `right` are the
recursive evaluations of the two subtrees. -/
def lowerBinary (left right : Nat → EvalState → EvalState) (op : SelectionOp)
    (n m g gs : Nat) (d : Nat) (st : EvalState) : EvalState :=
  let source := st.nextId
  let st1 : EvalState := ⟨st.nextId + 1, st.allocs ++ [(source, n)], st.cmds⟩
  let st2 := right d (left source st1)
  ⟨st2.nextId, st2.allocs, st2.cmds ++ [⟨op, source, d, m, g, gs, n⟩]⟩

/-- The unary-node lowering step of `evaluate_with_buffers`: the temporary
`source` buffer is still allocated (the source does so before matching on the
node), the single child is evaluated into the destination `d`, and the
recorded dispatch binds the temporary — not `d` — in the source slot. -/
def lowerUnary (child : Nat → EvalState → EvalState) (op : SelectionOp)
    (n m g gs : Nat) (d : Nat) (st : EvalState) : EvalState :=
  let source := st.nextId
  let st1 : EvalState := ⟨st.nextId + 1, st.allocs ++ [(source, n)], st.cmds⟩
  let st2 := child d st1
  ⟨st2.nextId, st2.allocs, st2.cmds ++ [⟨op, source, d, m, g, gs, n⟩]⟩

/-- Rust `SelectionBundle::evaluate_with_buffers` from `src/selection.rs` as a
state transformer. `n` is `gaussians.len()`, `m`, `g`, `gs` are the ids of the
model transform, Gaussian transform and Gaussian buffers, `d` is the id of the
destination selection buffer. At every node the source first creates the op
uniform buffer (its value is `expr.selection_op()`, carried in the dispatch
record) and a fresh temporary `SelectionBuffer` of capacity `n`, then recurses
per variant, then creates the Gaussians bind group
`[op, source, d, m, g, gs]` and records one dispatch of grid size `n`. -/
def evaluate_with_buffers (n m g gs : Nat) :
    SelectionOpExpr → Nat → EvalState → EvalState
  | SelectionOpExpr.Union l r, d, st =>
      let source := st.nextId
      let st1 : EvalState := ⟨st.nextId + 1, st.allocs ++ [(source, n)], st.cmds⟩
      let st2 := evaluate_with_buffers n m g gs r d
        (evaluate_with_buffers n m g gs l source st1)
      ⟨st2.nextId, st2.allocs,
        st2.cmds ++ [⟨SelectionOp.Union, source, d, m, g, gs, n⟩]⟩
  | SelectionOpExpr.Intersection l r, d, st =>
      let source := st.nextId
      let st1 : EvalState := ⟨st.nextId + 1, st.allocs ++ [(source, n)], st.cmds⟩
      let st2 := evaluate_with_buffers n m g gs r d
        (evaluate_with_buffers n m g gs l source st1)
      ⟨st2.nextId, st2.allocs,
        st2.cmds ++ [⟨SelectionOp.Intersection, source, d, m, g, gs, n⟩]⟩
  | SelectionOpExpr.Difference l r, d, st =>
      let source := st.nextId
      let st1 : EvalState := ⟨st.nextId + 1, st.allocs ++ [(source, n)], st.cmds⟩
      let st2 := evaluate_with_buffers n m g gs r d
        (evaluate_with_buffers n m g gs l source st1)
      ⟨st2.nextId, st2.allocs,
        st2.cmds ++ [⟨SelectionOp.Difference, source, d, m, g, gs, n⟩]⟩
  | SelectionOpExpr.SymmetricDifference l r, d, st =>
      let source := st.nextId
      let st1 : EvalState := ⟨st.nextId + 1, st.allocs ++ [(source, n)], st.cmds⟩
      let st2 := evaluate_with_buffers n m g gs r d
        (evaluate_with_buffers n m g gs l source st1)
      ⟨st2.nextId, st2.allocs,
        st2.cmds ++ [⟨SelectionOp.SymmetricDifference, source, d, m, g, gs, n⟩]⟩
  | SelectionOpExpr.Complement e, d, st =>
      let source := st.nextId
      let st1 : EvalState := ⟨st.nextId + 1, st.allocs ++ [(source, n)], st.cmds⟩
      let st2 := evaluate_with_buffers n m g gs e d st1
      ⟨st2.nextId, st2.allocs,
        st2.cmds ++ [⟨SelectionOp.Complement, source, d, m, g, gs, n⟩]⟩
  | SelectionOpExpr.Unary op e, d, st =>
      let source := st.nextId
      let st1 : EvalState := ⟨st.nextId + 1, st.allocs ++ [(source, n)], st.cmds⟩
      let st2 := evaluate_with_buffers n m g gs e d st1
      ⟨st2.nextId, st2.allocs,
        st2.cmds ++ [⟨SelectionOp.Custom op, source, d, m, g, gs, n⟩]⟩
  | SelectionOpExpr.Binary l op r, d, st =>
      let source := st.nextId
      let st1 : EvalState := ⟨st.nextId + 1, st.allocs ++ [(source, n)], st.cmds⟩
      let st2 := evaluate_with_buffers n m g gs r d
        (evaluate_with_buffers n m g gs l source st1)
      ⟨st2.nextId, st2.allocs,
        st2.cmds ++ [⟨SelectionOp.Custom op, source, d, m, g, gs, n⟩]⟩

/-- The core `Error` enum of `src/error.rs`. Payloads of the external error
types (`oneshot::RecvError`, `wgpu::BufferAsyncError`, `wgpu::PollError`) are
abstracted to opaque numeric codes. -/
inductive CoreError where
  | BufferBindGroupLayoutCountMismatch (buffer_count bind_group_layout_count : Nat)
  | MissingResolver
deriving DecidableEq, Repr

/-- The crate `Error` enum of `src/error.rs`. -/
inductive Error where
  | Core (e : CoreError)
  | BufferDownloadOneShotReceive (e : Nat)
  | BufferDownloadAsync (e : Nat)
  | DeviceFailedToPoll (e : Nat)
deriving DecidableEq, Repr

/-- Rust `MaskBuffer` from `src/buffer/selection.rs`, abstracted to the byte sizes
of its two `wgpu::Buffer`s: the storage `data` buffer and the host-mappable
`download` staging buffer (field `download_buf` here, since the structure also
has a `download` method). -/
structure MaskBuffer where
  data : Nat
  download_buf : Nat
deriving DecidableEq, Repr

/-- Rust `MaskBuffer::new_with_label`: both buffers are created with byte size
`gaussian_count.div_ceil(32) * size_of::<u32>()`, where `u32::div_ceil`
computes `self / rhs + (if self % rhs != 0 then 1 else 0)`. -/
def MaskBuffer.new_with_label (gaussian_count : Nat) : MaskBuffer :=
  let size := (gaussian_count / 32 +
    (if gaussian_count % 32 ≠ 0 then 1 else 0)) * 4
  ⟨size, size⟩

/-- Rust `MaskBuffer::new`: delegates to `new_with_label`. -/
def MaskBuffer.new (gaussian_count : Nat) : MaskBuffer :=
  MaskBuffer.new_with_label gaussian_count

/-- Rust `MaskBuffer::prepare_download`: the recorded
`copy_buffer_to_buffer(self.buffer(), 0, &self.download, 0,
self.download.size())` — the number of bytes copied from `data` into
`download`. -/
def MaskBuffer.prepare_download (b : MaskBuffer) : Nat :=
  b.download_buf

/-- Rust `MaskBuffer::map_download` as a function of the outcomes of its two
suspension points. `poll` is the result of `device.poll(PollType::Wait)?`,
`recv` the result of `rx.await??`: the outer layer is the oneshot channel
receive, the inner the `map_async` callback result. On success the staged
words (`pod_collect_to_vec` of the mapped range) are returned. -/
def MaskBuffer.map_download (poll : Except Nat Unit)
    (recv : Except Nat (Except Nat Unit)) (staged : List Nat) :
    Except Error (List Nat) :=
  match poll with
  | Except.error e => Except.error (Error.DeviceFailedToPoll e)
  | Except.ok _ =>
    match recv with
    | Except.error e => Except.error (Error.BufferDownloadOneShotReceive e)
    | Except.ok (Except.error e) => Except.error (Error.BufferDownloadAsync e)
    | Except.ok (Except.ok _) => Except.ok staged

/-- Rust `MaskBuffer::download`: records `prepare_download`, submits, then awaits
`map_download`; its result is `map_download`'s. -/
def MaskBuffer.download (poll : Except Nat Unit)
    (recv : Except Nat (Except Nat Unit)) (staged : List Nat) :
    Except Error (List Nat) :=
  MaskBuffer.map_download poll recv staged

/-- The number of `u32` words `pod_collect_to_vec` yields from the fully
copied `download` staging buffer of a mask buffer. -/
def MaskBuffer.downloadedWordCount (b : MaskBuffer) : Nat :=
  b.download_buf / 4

/-- The construction-time check of `SelectionBundle::new` (`src/selection.rs`):
`if buffers.len() == bundle.bind_group_layouts().len() { return
Err(Error::Core(core::Error::BufferBindGroupLayoutCountMismatch { .. })) }`,
otherwise the bundle is built. The supplied buffer groups are abstracted to
their count. -/
def SelectionBundle.new (buffer_count bind_group_layout_count : Nat) :
    Except Error Unit :=
  if buffer_count = bind_group_layout_count then
    Except.error (Error.Core
      (CoreError.BufferBindGroupLayoutCountMismatch buffer_count
        bind_group_layout_count))
  else
    Except.ok ()

/-- Claim C1: for every binary node (`Union`, `Intersection`, `Difference`,
`SymmetricDifference`, or custom `Binary`), `evaluate_with_buffers` lowers it
by recursively evaluating the left subtree into a freshly allocated temporary
selection buffer of capacity `n` (the element count), recursively evaluating
the right subtree into the destination buffer `d`, and then recording a
dispatch whose bindings put the temporary in the source slot and the
destination in the dest slot; the left operand always lands in the
temporary/source slot and the right operand in the destination. -/
theorem evaluate_binary_left_temp_right_dest (n m g gs : Nat) :
    (∀ l r d st, evaluate_with_buffers n m g gs (SelectionOpExpr.Union l r) d st =
      lowerBinary (evaluate_with_buffers n m g gs l)
        (evaluate_with_buffers n m g gs r) SelectionOp.Union n m g gs d st) ∧
    (∀ l r d st,
      evaluate_with_buffers n m g gs (SelectionOpExpr.Intersection l r) d st =
      lowerBinary (evaluate_with_buffers n m g gs l)
        (evaluate_with_buffers n m g gs r) SelectionOp.Intersection n m g gs d st) ∧
    (∀ l r d st,
      evaluate_with_buffers n m g gs (SelectionOpExpr.Difference l r) d st =
      lowerBinary (evaluate_with_buffers n m g gs l)
        (evaluate_with_buffers n m g gs r) SelectionOp.Difference n m g gs d st) ∧
    (∀ l r d st,
      evaluate_with_buffers n m g gs (SelectionOpExpr.SymmetricDifference l r) d st =
      lowerBinary (evaluate_with_buffers n m g gs l)
        (evaluate_with_buffers n m g gs r) SelectionOp.SymmetricDifference n m g gs d st) ∧
    (∀ l k r d st,
      evaluate_with_buffers n m g gs (SelectionOpExpr.Binary l k r) d st =
      lowerBinary (evaluate_with_buffers n m g gs l)
        (evaluate_with_buffers n m g gs r) (SelectionOp.Custom k) n m g gs d st) ∧
    (∀ left right op d st,
      lowerBinary left right op n m g gs d st =
        ⟨(right d (left st.nextId
            ⟨st.nextId + 1, st.allocs ++ [(st.nextId, n)], st.cmds⟩)).nextId,
          (right d (left st.nextId
            ⟨st.nextId + 1, st.allocs ++ [(st.nextId, n)], st.cmds⟩)).allocs,
          (right d (left st.nextId
            ⟨st.nextId + 1, st.allocs ++ [(st.nextId, n)], st.cmds⟩)).cmds ++
            [⟨op, st.nextId, d, m, g, gs, n⟩]⟩) ∧
    (∀ left right op d st,
      (lowerBinary left right op n m g gs d st).cmds.getLast? =
        some ⟨op, st.nextId, d, m, g, gs, n⟩) := by
  refine ⟨fun l r d st => rfl, fun l r d st => rfl, fun l r d st => rfl,
    fun l r d st => rfl, fun l k r d st => rfl, fun left right op d st => rfl,
    fun left right op d st => ?_⟩
  simp [lowerBinary]

/-- Claim C2, counterexample: at the unary lowering step shared by the
`Complement` and `Unary` arms of `evaluate_with_buffers`, the recorded
dispatch does NOT alias the source binding to the destination buffer: with
destination buffer id `0` and a freshly allocated temporary id `1`, the single
recorded dispatch binds buffer `1` (the temporary), not buffer `0`, in the
source slot, so its source and dest bindings differ. (The expression type
itself has no constructible values — see claim C5 — so the step function the
two unary arms reduce to is evaluated at an explicit child continuation.) -/
theorem lowerUnary_source_is_fresh_temp_cex :
    (lowerUnary (fun _ st => st) SelectionOp.Complement 64 10 11 12 0
      ⟨1, [], []⟩).cmds = [⟨SelectionOp.Complement, 1, 0, 10, 11, 12, 64⟩] ∧
    ((lowerUnary (fun _ st => st) SelectionOp.Complement 64 10 11 12 0
      ⟨1, [], []⟩).cmds.map fun c => decide (c.source = c.dest)) = [false] :=
  ⟨rfl, rfl⟩

/-- Claim C2, amended: for every unary node (`Complement`, or custom `Unary`),
`evaluate_with_buffers` recursively evaluates the single child directly into
the destination buffer and then records a dispatch whose source binding is the
freshly allocated temporary selection buffer of that node — never written by
the recursion — rather than an alias of the destination; the destination holds
the child's result and is transformed in place through the dest binding. -/
theorem evaluate_unary_child_into_dest_temp_source (n m g gs : Nat)
    (op : SelectionOp) :
    (∀ e d st, evaluate_with_buffers n m g gs (SelectionOpExpr.Complement e) d st =
      lowerUnary (evaluate_with_buffers n m g gs e) SelectionOp.Complement
        n m g gs d st) ∧
    (∀ k e d st, evaluate_with_buffers n m g gs (SelectionOpExpr.Unary k e) d st =
      lowerUnary (evaluate_with_buffers n m g gs e) (SelectionOp.Custom k)
        n m g gs d st) ∧
    (∀ child d st, lowerUnary child op n m g gs d st =
      ⟨(child d ⟨st.nextId + 1, st.allocs ++ [(st.nextId, n)], st.cmds⟩).nextId,
        (child d ⟨st.nextId + 1, st.allocs ++ [(st.nextId, n)], st.cmds⟩).allocs,
        (child d ⟨st.nextId + 1, st.allocs ++ [(st.nextId, n)], st.cmds⟩).cmds ++
          [⟨op, st.nextId, d, m, g, gs, n⟩]⟩) ∧
    (∀ child d st, (lowerUnary child op n m g gs d st).cmds.getLast? =
      some ⟨op, st.nextId, d, m, g, gs, n⟩) := by
  refine ⟨fun e d st => rfl, fun k e d st => rfl, fun child d st => rfl,
    fun child d st => ?_⟩
  simp [lowerUnary]

/-- Claim C3, counterexample: the builder assigns the first registered custom
operation the numeric code `4`, not `5`: registering the single snippet `f`
produces the name-to-code entry `("f", 4)` (and no entry with code `5`), and
the generated dispatcher branch for it tests `op == 4`, not `op == 5`. -/
theorem custom_op_code_start_cex :
    buildCustomOpsList ["f"] = [("f", 4)] ∧
    ("f", (5 : Nat)) ∉ buildCustomOpsList ["f"] ∧
    customOpsLines ["f"] = ["else if op == 4 \x7b f; \x7d"] ∧
    customOpsLines ["f"] ≠ ["else if op == 5 \x7b f; \x7d"] := by
  refine ⟨rfl, by decide, rfl, by decide⟩

/-- Claim C3, amended: every custom operation is identified by numeric op code
`opIdx + CUSTOM_OP_START` with `CUSTOM_OP_START = 4`: the builder assigns the
`i`-th registered custom operation the code `i + 4` in its name-to-code map,
and the generated dispatcher shader contains, for the `i`-th registered
snippet, a branch testing `op == i + 4` that invokes that snippet, built once
at construction time. -/
theorem custom_op_code_start_four (ops : List String) (i : Nat)
    (h : i < ops.length) :
    (buildCustomOpsList ops)[i]? = some (ops[i], i + 4) ∧
    (customOpsLines ops)[i]? =
      some ("else if op == " ++ toString (i + 4) ++ " \x7b " ++ ops[i] ++
        "; \x7d") := by
  constructor
  · simp [buildCustomOpsList, List.getElem?_map, List.getElem?_enum,
      List.getElem?_eq_getElem h]
  · simp [customOpsLines, List.getElem?_map, List.getElem?_enum,
      List.getElem?_eq_getElem h]

/-- Witness for claim C3's amended theorem at the concrete registry
`["f", "g"]` and index `1`: the second snippet gets code `5 = 1 + 4` and the
branch `op == 5`. -/
theorem custom_op_code_start_four_witness :
    (buildCustomOpsList ["f", "g"])[1]? = some ("g", 5) ∧
    (customOpsLines ["f", "g"])[1]? = some "else if op == 5 \x7b g; \x7d" := by
  have h := custom_op_code_start_four ["f", "g"] 1 (by decide)
  simpa using h

/-- Claim C4, counterexample: the op-code accessor returns `3` for
`Difference` and `2` for `SymmetricDifference` — not `2` and `3` as the claim
states. -/
theorem selection_op_codes_cex :
    SelectionOp.as_u32 SelectionOp.Difference = 3 ∧
    SelectionOp.as_u32 SelectionOp.SymmetricDifference = 2 ∧
    SelectionOp.as_u32 SelectionOp.Difference ≠ 2 := by decide

/-- Claim C4, amended: the five primitive operations carry the fixed numeric
op codes `Union = 0`, `Intersection = 1`, `SymmetricDifference = 2`,
`Difference = 3`, `Complement = 4` (the source order swaps
`SymmetricDifference` and `Difference` relative to the spec's listing), and
for every expression node the accessor `selection_op` returns the operation of
the corresponding variant. -/
theorem selection_op_codes :
    SelectionOp.as_u32 SelectionOp.Union = 0 ∧
    SelectionOp.as_u32 SelectionOp.Intersection = 1 ∧
    SelectionOp.as_u32 SelectionOp.SymmetricDifference = 2 ∧
    SelectionOp.as_u32 SelectionOp.Difference = 3 ∧
    SelectionOp.as_u32 SelectionOp.Complement = 4 ∧
    (∀ l r, (SelectionOpExpr.Union l r).selection_op = SelectionOp.Union) ∧
    (∀ l r, (SelectionOpExpr.Intersection l r).selection_op =
      SelectionOp.Intersection) ∧
    (∀ l r, (SelectionOpExpr.Difference l r).selection_op =
      SelectionOp.Difference) ∧
    (∀ l r, (SelectionOpExpr.SymmetricDifference l r).selection_op =
      SelectionOp.SymmetricDifference) ∧
    (∀ e, (SelectionOpExpr.Complement e).selection_op =
      SelectionOp.Complement) ∧
    (∀ k e, (SelectionOpExpr.Unary k e).selection_op = SelectionOp.Custom k) ∧
    (∀ l k r, (SelectionOpExpr.Binary l k r).selection_op =
      SelectionOp.Custom k) :=
  ⟨rfl, rfl, rfl, rfl, rfl, fun _ _ => rfl, fun _ _ => rfl, fun _ _ => rfl,
    fun _ _ => rfl, fun _ => rfl, fun _ _ => rfl, fun _ _ _ => rfl⟩

/-- Claim C5, counterexample: the expression algebra has no leaf variant at
all — no `SelectionOpExpr` node has zero children, so in particular no
`Identity` or `Buffer` leaf exists to terminate the lowering recursion. -/
theorem no_leaf_variant_cex : ¬ ∃ e : SelectionOpExpr, e.childCount = 0 := by
  rintro ⟨e, h⟩
  cases e <;> simp [SelectionOpExpr.childCount] at h

/-- Claim C5, amended: the expression algebra `SelectionOpExpr` consists of
exactly the seven variants `Union`, `Intersection`, `Difference`,
`SymmetricDifference`, `Complement`, `Unary` and `Binary`, each carrying at
least one subexpression; it has no `Identity` or `Buffer` leaf variant, and
consequently no expression value can be constructed at all. -/
theorem selection_op_expr_no_leaves :
    (∀ e : SelectionOpExpr, 0 < e.childCount) ∧ IsEmpty SelectionOpExpr := by
  constructor
  · intro e
    cases e <;> simp [SelectionOpExpr.childCount]
  · constructor
    intro e
    induction e with
    | Union l r ihl ihr => exact ihl
    | Intersection l r ihl ihr => exact ihl
    | Difference l r ihl ihr => exact ihl
    | SymmetricDifference l r ihl ihr => exact ihl
    | Complement e ih => exact ih
    | Unary k e ih => exact ih
    | Binary l k r ihl ihr => exact ihl

/-- Claim C6: for every element count `n` (a `u32`, hence `n < 2 ^ 32`), a
freshly constructed mask buffer has byte size `ceil(n / 32) * 4`, i.e. exactly
`ceil(n / 32)` 32-bit words, and `MaskBuffer::new` fixes that size at
construction by delegating to `new_with_label`. -/
theorem mask_buffer_word_count (n : Nat) (_h : n < 2 ^ 32) :
    (MaskBuffer.new_with_label n).data = ((n + 31) / 32) * 4 ∧
    (MaskBuffer.new_with_label n).data / 4 = (n + 31) / 32 ∧
    MaskBuffer.new n = MaskBuffer.new_with_label n := by
  have key : n / 32 + (if n % 32 ≠ 0 then 1 else 0) = (n + 31) / 32 := by
    split <;> omega
  refine ⟨?_, ?_, rfl⟩
  · show (n / 32 + (if n % 32 ≠ 0 then 1 else 0)) * 4 = ((n + 31) / 32) * 4
    rw [key]
  · show (n / 32 + (if n % 32 ≠ 0 then 1 else 0)) * 4 / 4 = (n + 31) / 32
    rw [key]
    generalize (n + 31) / 32 = q
    omega

/-- Witness for claim C6 at `n = 33`: two words, eight bytes. -/
theorem mask_buffer_word_count_witness :
    33 < 2 ^ 32 ∧
    ((MaskBuffer.new_with_label 33).data = ((33 + 31) / 32) * 4 ∧
      (MaskBuffer.new_with_label 33).data / 4 = (33 + 31) / 32 ∧
      MaskBuffer.new 33 = MaskBuffer.new_with_label 33) :=
  ⟨by norm_num, mask_buffer_word_count 33 (by norm_num)⟩

/-- Claim C7: `download` returns a recoverable error result to its caller
exactly when the device poll fails or the asynchronous map machinery reports
an error (a failed oneshot receive or a map-callback error); on success — poll
succeeded and the mapping-ready notification delivered a successful map
result — it returns the staged words. -/
theorem download_error_exactly_on_poll_or_map_failure
    (poll : Except Nat Unit) (recv : Except Nat (Except Nat Unit))
    (staged : List Nat) :
    ((∃ err, MaskBuffer.download poll recv staged = Except.error err) ↔
      (∃ e, poll = Except.error e) ∨ (∃ e, recv = Except.error e) ∨
      (∃ e, recv = Except.ok (Except.error e))) ∧
    (poll = Except.ok () ∧ recv = Except.ok (Except.ok ()) →
      MaskBuffer.download poll recv staged = Except.ok staged) := by
  cases poll with
  | error e => simp [MaskBuffer.download, MaskBuffer.map_download]
  | ok u =>
    cases u
    cases recv with
    | error e => simp [MaskBuffer.download, MaskBuffer.map_download]
    | ok inner =>
      cases inner with
      | error e => simp [MaskBuffer.download, MaskBuffer.map_download]
      | ok v =>
        cases v
        simp [MaskBuffer.download, MaskBuffer.map_download]

/-- Witness for claim C7 at a successful poll and map notification with staged
words `[7]`. -/
theorem download_success_witness :
    MaskBuffer.download (Except.ok ()) (Except.ok (Except.ok ())) [7] =
      Except.ok [7] :=
  (download_error_exactly_on_poll_or_map_failure (Except.ok ())
    (Except.ok (Except.ok ())) [7]).2 ⟨rfl, rfl⟩

/-- Claim C8 (code bug): `SelectionBundle::new` raises
`BufferBindGroupLayoutCountMismatch` exactly when the supplied buffer-group
count EQUALS the bind-group-layout count, and accepts any differing count —
the opposite of what the error's own name and the spec describe. Evaluated
here at a matching count (2, 2), which is rejected, and at a mismatched count
(1, 2), which is accepted. -/
theorem selection_bundle_new_rejects_matching_count :
    SelectionBundle.new 2 2 = Except.error (Error.Core
      (CoreError.BufferBindGroupLayoutCountMismatch 2 2)) ∧
    SelectionBundle.new 1 2 = Except.ok () :=
  ⟨rfl, rfl⟩

/-- Claim C9: the builder maps the first registered custom operation (index 0)
to code `0 + 4 = 4`, and `SelectionOp.Custom 4` has the same numeric code as
`SelectionOp.Complement`, so the code spaces of custom operations and
primitives are not disjoint at the public interface. -/
theorem first_custom_op_code_collides_with_complement (op : String)
    (ops : List String) :
    (buildCustomOpsList (op :: ops)).head? = some (op, 4) ∧
    SelectionOp.as_u32 (SelectionOp.Custom 4) =
      SelectionOp.as_u32 SelectionOp.Complement :=
  ⟨rfl, rfl⟩

/-- Claim C10: for every element count `n` (a `u32`), the mask buffer's GPU
data buffer and its host-visible download staging buffer are created with
identical byte sizes, `prepare_download` copies exactly the full staging-buffer
size, and a successful download therefore yields exactly `ceil(n / 32)`
words. -/
theorem mask_buffer_download_size_invariant (n : Nat) (_h : n < 2 ^ 32) :
    (MaskBuffer.new n).data = (MaskBuffer.new n).download_buf ∧
    (MaskBuffer.new n).prepare_download = (MaskBuffer.new n).download_buf ∧
    (MaskBuffer.new n).downloadedWordCount = (n + 31) / 32 := by
  have key : n / 32 + (if n % 32 ≠ 0 then 1 else 0) = (n + 31) / 32 := by
    split <;> omega
  refine ⟨rfl, rfl, ?_⟩
  show (n / 32 + (if n % 32 ≠ 0 then 1 else 0)) * 4 / 4 = (n + 31) / 32
  rw [key]
  generalize (n + 31) / 32 = q
  omega

/-- Witness for claim C10 at `n = 100`: both buffers have 16 bytes and the
download yields 4 words. -/
theorem mask_buffer_download_size_invariant_witness :
    100 < 2 ^ 32 ∧
    ((MaskBuffer.new 100).data = (MaskBuffer.new 100).download_buf ∧
      (MaskBuffer.new 100).prepare_download = (MaskBuffer.new 100).download_buf ∧
      (MaskBuffer.new 100).downloadedWordCount = (100 + 31) / 32) :=
  ⟨by norm_num, mask_buffer_download_size_invariant 100 (by norm_num)⟩

end WgpuEditor
